import Mathlib

/-!
Shallow embedding of the resilience and routing core of the API gateway
(`src/api_gateway/src/index.ts` and `src/api_gateway/src/errors.ts`).

Timestamps (`Date.now()`) are modelled as `Nat` milliseconds and passed
explicitly to each function that reads the clock.  JSON response bodies are
modelled by a small `Json` inductive.  Configuration values read from the
environment (failure threshold, open duration, rate-limit windows) are
explicit parameters.  JavaScript string primitives (`startsWith`, `trim`)
are modelled character-wise over `String.data`, which is their exact
semantics on the ASCII header and path values the gateway handles.
-/

namespace Gateway

/-- JS `s.startsWith(pre)`: character-wise prefix test. -/
def jsStartsWith (s pre : String) : Bool :=
  pre.data.isPrefixOf s.data

/-- JS `s.trim()`: strip leading and trailing whitespace characters. -/
def jsTrim (s : String) : String :=
  ⟨((s.data.dropWhile Char.isWhitespace).reverse.dropWhile Char.isWhitespace).reverse⟩

/-- Minimal JSON value model for response bodies. -/
inductive Json where
  | str : String → Json
  | num : Nat → Json
  | obj : List (String × Json) → Json

/-- An HTTP response as produced by the gateway: status code, the headers the
gateway sets explicitly, and the JSON body. -/
structure HttpResponse where
  status : Nat
  headers : List (String × String)
  body : Json

mutual

/-- Whether a key occurs anywhere in a JSON value (at any nesting depth). -/
def Json.hasKeyDeep (k : String) : Json → Bool
  | .str _ => false
  | .num _ => false
  | .obj fields => Json.fieldsHaveKey k fields

/-- Whether a key occurs in a JSON field list, at any nesting depth. -/
def Json.fieldsHaveKey (k : String) : List (String × Json) → Bool
  | [] => false
  | (k', v) :: t => k' == k || Json.hasKeyDeep k v || Json.fieldsHaveKey k t

end

mutual

/-- Structural equality test on JSON values. -/
def Json.beq : Json → Json → Bool
  | .str a, .str b => a == b
  | .num a, .num b => a == b
  | .obj a, .obj b => Json.fieldsBeq a b
  | _, _ => false

/-- Structural equality test on JSON field lists. -/
def Json.fieldsBeq : List (String × Json) → List (String × Json) → Bool
  | [], [] => true
  | (k₁, v₁) :: t₁, (k₂, v₂) :: t₂ =>
    k₁ == k₂ && Json.beq v₁ v₂ && Json.fieldsBeq t₁ t₂
  | _, _ => false

end

instance : BEq Json := ⟨Json.beq⟩

/-- `AppError` from `src/api_gateway/src/errors.ts` (message, statusCode, code). -/
structure AppError where
  message : String
  statusCode : Nat
  code : String
deriving DecidableEq, Repr

/-- The error produced on every authentication failure path of the auth
middleware: `new AppError('Unauthorized', 401, 'UNAUTHORIZED')`. -/
def unauthorizedError : AppError :=
  { message := "Unauthorized", statusCode := 401, code := "UNAUTHORIZED" }

/-- `errorHandler` from `src/api_gateway/src/errors.ts`: renders an `AppError`
as `{ error: { code, message }, requestId }` with the error's status code.
`requestId` is `req.requestId ?? 'n/a'`. -/
def errorHandler (requestId : Option String) (e : AppError) : HttpResponse :=
  { status := e.statusCode
    headers := []
    body := .obj
      [("error", .obj [("code", .str e.code), ("message", .str e.message)]),
       ("requestId", .str (requestId.getD "n/a"))] }

/-- The two upstream services of `CircuitBreakerState.targetService`. -/
inductive TargetService where
  | user_service
  | notes_service
deriving DecidableEq, Repr

def serviceName : TargetService → String
  | .user_service => "user_service"
  | .notes_service => "notes_service"

/-- `CircuitBreakerState` from `src/api_gateway/src/index.ts` lines 36-41. -/
structure CircuitBreakerState where
  targetService : TargetService
  consecutiveFailures : Nat
  openedAt : Option Nat
  openUntil : Nat
deriving DecidableEq, Repr

/-- `createCircuitBreaker` (index.ts lines 92-99). -/
def createCircuitBreaker (targetService : TargetService) : CircuitBreakerState :=
  { targetService, consecutiveFailures := 0, openedAt := none, openUntil := 0 }

/-- `isCircuitOpen` (index.ts line 101): `Date.now() < breaker.openUntil`. -/
def isCircuitOpen (now : Nat) (b : CircuitBreakerState) : Bool :=
  decide (now < b.openUntil)

/-- `openCircuit` (index.ts lines 103-115), logging omitted. -/
def openCircuit (openMs now : Nat) (b : CircuitBreakerState) : CircuitBreakerState :=
  { b with consecutiveFailures := 0, openedAt := some now, openUntil := now + openMs }

/-- `markCircuitFailure` (index.ts lines 117-135).  `threshold` is the
configured `circuitBreakerFailureThreshold`, `openMs` the configured
`circuitBreakerOpenMs`, `now` the value of `Date.now()` at the call. -/
def markCircuitFailure (threshold openMs now : Nat) (b : CircuitBreakerState) :
    CircuitBreakerState :=
  if now < b.openUntil then b
  else if b.openedAt ≠ none ∧ now ≥ b.openUntil then openCircuit openMs now b
  else
    let b' := { b with consecutiveFailures := b.consecutiveFailures + 1 }
    if b'.consecutiveFailures ≥ threshold then openCircuit openMs now b' else b'

/-- `markCircuitSuccess` (index.ts lines 137-147), logging omitted. -/
def markCircuitSuccess (b : CircuitBreakerState) : CircuitBreakerState :=
  { b with consecutiveFailures := 0, openedAt := none, openUntil := 0 }

/-- A header value as it appears on an express request:
`string | string[] | undefined`. -/
inductive HeaderVal where
  | undef
  | str : String → HeaderVal
  | arr : List String → HeaderVal
deriving DecidableEq, Repr

/-- `getSingleHeaderValue` (index.ts lines 43-53). -/
def getSingleHeaderValue : HeaderVal → String
  | .str s => s
  | .arr xs => if xs.length > 0 then xs.headD "" else ""
  | .undef => ""

/-- The request fields the gateway middleware reads and writes:
method, path, the `authorization` header (`string | undefined` in express),
the identity/tracing headers, and the `requestId` property the stamper
attaches to the request object. -/
structure GatewayRequest where
  method : String
  path : String
  authorization : Option String
  xRequestId : HeaderVal
  xUserId : HeaderVal
  xUserEmail : HeaderVal
  xUserRole : HeaderVal
  requestId : Option String
deriving DecidableEq, Repr

/-- The request-id stamper middleware (index.ts lines 179-192).  `uuid` is the
value `randomUUID()` would return.  Returns the updated request and the value
set on the response's `x-request-id` header.  The middleware always calls
`next()`: it is a total function with no rejection outcome. -/
def requestIdStamper (uuid : String) (req : GatewayRequest) :
    GatewayRequest × String :=
  let incomingRequestId :=
    match req.xRequestId with
    | .str s => jsTrim s
    | .arr xs => jsTrim (xs.headD "")
    | .undef => ""
  let requestId := if incomingRequestId = "" then uuid else incomingRequestId
  ({ req with xRequestId := .str requestId, requestId := some requestId }, requestId)

/-- `sendCircuitOpenResponse` (index.ts lines 149-176): 503 with code
`CIRCUIT_OPEN`, the upstream name, `retryAfterSeconds =
Math.ceil(max(0, openUntil - now) / 1000)` and a `Retry-After` header. -/
def sendCircuitOpenResponse (now : Nat) (req : GatewayRequest)
    (b : CircuitBreakerState) : HttpResponse :=
  let remainingMs := b.openUntil - now
  let retryAfterSeconds := (remainingMs + 999) / 1000
  let requestId := req.requestId.getD (getSingleHeaderValue req.xRequestId)
  { status := 503
    headers := [("Retry-After", toString retryAfterSeconds)]
    body := .obj
      [("error", .obj
        [("code", .str "CIRCUIT_OPEN"),
         ("message", .str "Upstream service temporarily unavailable"),
         ("service", .str (serviceName b.targetService)),
         ("retryAfterSeconds", .num retryAfterSeconds)]),
       ("requestId", .str requestId)] }

/-- Outcome of the per-upstream circuit-breaker check middleware. -/
inductive GateDecision where
  | reject : HttpResponse → GateDecision
  | forward : GateDecision

/-- The circuit-breaker check middleware body (index.ts lines 239-261):
if the circuit is open, respond with `sendCircuitOpenResponse` and stop;
otherwise call `next()` (the request goes on towards the proxy). -/
def circuitGate (now : Nat) (req : GatewayRequest) (b : CircuitBreakerState) :
    GateDecision :=
  if isCircuitOpen now b then .reject (sendCircuitOpenResponse now req b) else .forward

/-- The payload claims the auth middleware reads off a decoded JWT:
`decoded.sub`, `decoded.email`, `decoded.role` (arbitrary JSON values,
absent when the claim is missing). -/
structure JwtClaims where
  sub : Option Json
  email : Option Json
  role : Option Json

/-- Result of `jwt.verify(token, jwtSecret)`: a thrown error, a string
payload, or a decoded claims object.  The verification algorithm itself
lives in the `jsonwebtoken` dependency; the middleware only distinguishes
these three outcomes. -/
inductive VerifyResult where
  | err
  | strPayload : String → VerifyResult
  | payload : JwtClaims → VerifyResult

/-- Outcome of the auth middleware: `next()` with the (possibly updated)
request, or `next(err)` which diverts to the error handler — the request
then never reaches the proxy. -/
inductive AuthOutcome where
  | next : GatewayRequest → AuthOutcome
  | nextError : AppError → AuthOutcome

/-- The subject the middleware extracts from a decoded payload:
`typeof decoded.sub === 'string' ? decoded.sub : ''` (index.ts line 312). -/
def extractedSub (c : JwtClaims) : String :=
  match c.sub with | some (.str s) => s | _ => ""

/-- The email the middleware extracts from a decoded payload:
`typeof decoded.email === 'string' ? decoded.email : ''` (index.ts line 313). -/
def extractedEmail (c : JwtClaims) : String :=
  match c.email with | some (.str s) => s | _ => ""

/-- The role the middleware derives:
`decoded.role === 'admin' ? 'admin' : 'user'` (index.ts line 314). -/
def extractedRole (c : JwtClaims) : String :=
  if c.role == some (Json.str "admin") then "admin" else "user"

/-- The auth middleware (index.ts lines 286-328).  `verify` abstracts
`jwt.verify` with the configured secret; every failure mode of the
library (malformed token, bad signature, expiry) is `VerifyResult.err`,
matching the `catch` block.  On success the three `x-user-*` headers are
assigned (overwritten, not merged). -/
def authMiddleware (verify : String → VerifyResult) (req : GatewayRequest) :
    AuthOutcome :=
  let isUsersRoute := jsStartsWith req.path "/users"
  let isNotesRoute := jsStartsWith req.path "/notes"
  let isPublicRoute := req.path == "/users/login"
  if !isUsersRoute && !isNotesRoute then .next req
  else if isPublicRoute then .next req
  else
    match req.authorization with
    | none => .nextError unauthorizedError
    | some authHeader =>
      if !(jsStartsWith authHeader "Bearer ") then .nextError unauthorizedError
      else
        let token := authHeader.drop "Bearer ".length
        match verify token with
        | .err => .nextError unauthorizedError
        | .strPayload _ => .nextError unauthorizedError
        | .payload decoded =>
          let userId := extractedSub decoded
          let userEmail := extractedEmail decoded
          let userRole := extractedRole decoded
          if userId == "" then .nextError unauthorizedError
          else .next { req with
            xUserId := .str userId,
            xUserEmail := .str userEmail,
            xUserRole := .str userRole }

/-- The headers the `proxyReq` handlers set on the outgoing upstream request
(index.ts lines 361-383 for `/users`, 406-428 for `/notes`; both bodies are
identical).  `none` means the header is not set on the upstream request. -/
structure ForwardedHeaders where
  xRequestId : Option String
  authorization : Option String
  xUserId : Option String
  xUserEmail : Option String
  xUserRole : Option String
deriving DecidableEq, Repr

/-- The `proxyReq` handler: read each header off the incoming request with
`getSingleHeaderValue` and set it upstream only when non-empty. -/
def proxyReqHeaders (req : GatewayRequest) : ForwardedHeaders :=
  let keep (s : String) : Option String := if s == "" then none else some s
  { xRequestId := keep (getSingleHeaderValue req.xRequestId)
    authorization := keep (req.authorization.getD "")
    xUserId := keep (getSingleHeaderValue req.xUserId)
    xUserEmail := keep (getSingleHeaderValue req.xUserEmail)
    xUserRole := keep (getSingleHeaderValue req.xUserRole) }

/-- `RateLimiterWindow`: fixed-window state per (scope, clientKey). -/
structure RLWindow where
  windowStart : Nat
  count : Nat
deriving DecidableEq, Repr

/-- Modelled from the spec: the fixed-window admission algorithm of the
`express-rate-limit` dependency (not under `src/`), as §4.2 describes it —
"On each call, if no window exists or the current window has expired, start
a new window with count = 1 and admit.  Otherwise increment; admit if
count ≤ max, else reject."  Returns the admission decision and the updated
window. -/
def rlAdmit (windowMs max now : Nat) (w : Option RLWindow) :
    Bool × RLWindow :=
  match w with
  | none => (true, ⟨now, 1⟩)
  | some win =>
    if win.windowStart + windowMs ≤ now then (true, ⟨now, 1⟩)
    else
      let c := win.count + 1
      (decide (c ≤ max), ⟨win.windowStart, c⟩)

/-- Run a sequence of admission calls (request arrival times) against one
(scope, clientKey) window. -/
def rlRun (windowMs max : Nat) (w : Option RLWindow) :
    List Nat → Option RLWindow × List Bool
  | [] => (w, [])
  | t :: ts =>
    let (d, w') := rlAdmit windowMs max t w
    let (wfin, ds) := rlRun windowMs max (some w') ts
    (wfin, d :: ds)

/-- Modelled from the spec: the `Retry-After` value `express-rate-limit`
attaches to a rejected response (not under `src/`), "derived from the
ceiling of milliseconds remaining in the window" (§4.2). -/
def rlRetryAfterSeconds (windowMs now : Nat) (win : RLWindow) : Nat :=
  (win.windowStart + windowMs - now + 999) / 1000

/-- The custom 429 handler of `createRateLimiter` (index.ts lines 206-226):
body `{ error: { code: 'RATE_LIMITED', message, limiter }, requestId }`. -/
def rateLimitedBody (limiterName : String) (requestId : Option String) : Json :=
  .obj
    [("error", .obj
      [("code", .str "RATE_LIMITED"),
       ("message", .str "Too many requests, please try again later."),
       ("limiter", .str limiterName)]),
     ("requestId", .str (requestId.getD "n/a"))]

/-- The full 429 response on rate-limit rejection: status and body from the
source handler; the `Retry-After` header is the library's, modelled from the
spec. -/
def rateLimitedResponse (limiterName : String) (requestId : Option String)
    (retryAfterSeconds : Nat) : HttpResponse :=
  { status := 429
    headers := [("Retry-After", toString retryAfterSeconds)]
    body := rateLimitedBody limiterName requestId }

/-- Express mount matching for `app.use(mount, …)`: the middleware runs when
the request path equals the mount or extends it past a `/` boundary
(character-wise, the semantics express applies to these ASCII mounts). -/
def expressMountMatches (mount path : String) : Bool :=
  path == mount || (mount ++ "/").data.isPrefixOf path.data

/-- The sub-path express exposes as `req.path` inside a mounted middleware:
the mount prefix is stripped; a path equal to the mount becomes `/`. -/
def expressSubPath (mount path : String) : String :=
  if path == mount then "/" else ⟨path.data.drop mount.data.length⟩

/-- The `skip` predicate of the `users` limiter mount (index.ts line 232):
`(req) => req.path === '/login'`, where `req.path` is the sub-path under the
`/users` mount. -/
def usersSkip (path : String) : Bool :=
  expressSubPath "/users" path == "/login"

/-- Whether a request path is counted by the `login`-scope limiter
(mounted with `app.use('/users/login', …)`, index.ts line 229). -/
def countsAgainstLogin (path : String) : Bool :=
  expressMountMatches "/users/login" path

/-- Whether a request path is counted by the `users`-scope limiter
(mounted with `app.use('/users', …)` with the login skip, lines 230-233). -/
def countsAgainstUsers (path : String) : Bool :=
  expressMountMatches "/users" path && !(usersSkip path)

/-- Whether a request path is counted by the `notes`-scope limiter
(mounted with `app.use('/notes', …)`, index.ts line 234). -/
def countsAgainstNotes (path : String) : Bool :=
  expressMountMatches "/notes" path

mutual

/-- Whether a JSON value contains a numeric leaf anywhere. -/
def Json.containsNum : Json → Bool
  | .str _ => false
  | .num _ => true
  | .obj fs => Json.fieldsContainNum fs

/-- Whether a JSON field list contains a numeric leaf anywhere. -/
def Json.fieldsContainNum : List (String × Json) → Bool
  | [] => false
  | (_, v) :: t => Json.containsNum v || Json.fieldsContainNum t

end

/-- The configuration the gateway reads from the environment. -/
structure GatewayConfig where
  failureThreshold : Nat
  openMs : Nat
  loginWindowMs : Nat
  loginMax : Nat
  usersWindowMs : Nat
  usersMax : Nat
  notesWindowMs : Nat
  notesMax : Nat

/-- The process-wide mutable state: one breaker per upstream and the
per-client windows of the three rate-limiter scopes. -/
structure GatewayState where
  userBreaker : CircuitBreakerState
  notesBreaker : CircuitBreakerState
  loginWindows : String → Option RLWindow
  usersWindows : String → Option RLWindow
  notesWindows : String → Option RLWindow

/-- What the gateway does with one request: answer it locally with a
response, answer the `/health` probe (body holds runtime uptime/timestamp,
outside this model), or forward it to an upstream with the headers the
`proxyReq` handler set. -/
inductive GatewayResult where
  | response : HttpResponse → GatewayResult
  | healthResponse : GatewayResult
  | forward : TargetService → ForwardedHeaders → GatewayResult

/-- The static body of `GET /` (index.ts lines 330-340). -/
def rootInfoResponse : HttpResponse :=
  { status := 200
    headers := []
    body := .obj
      [("service", .str "api_gateway"),
       ("status", .str "ok"),
       ("routes", .obj
         [("users", .str "/users"),
          ("notes", .str "/notes"),
          ("health", .str "/health")])] }

/-- One rate-limiter mount processing a request: admit or reject the client's
window and update the per-client window map. -/
def limiterStep (windowMs max now : Nat) (clientKey : String)
    (windows : String → Option RLWindow) :
    Bool × (String → Option RLWindow) × Nat :=
  let (admitted, w') := rlAdmit windowMs max now (windows clientKey)
  (admitted,
   fun k => if k == clientKey then some w' else windows k,
   rlRetryAfterSeconds windowMs now w')

/-- The gateway's middleware chain in mount order (index.ts lines 178-445):
request-id stamper; login-, users- and notes-scope rate limiters; the two
circuit-breaker gates; the auth middleware; the `GET /` and `GET /health`
routes; the two proxies; the 404 handler; the error handler.  `now` is the
clock, `uuid` the value `randomUUID()` would produce, `clientKey` the
client identity the rate limiters key on.  Breaker state changes on the
upstream's outcome happen in the proxy callbacks after forwarding and are
modelled separately by `markCircuitFailure` / `markCircuitSuccess`. -/
def handleRequest (cfg : GatewayConfig) (verify : String → VerifyResult)
    (now : Nat) (uuid clientKey : String)
    (st : GatewayState) (req₀ : GatewayRequest) : GatewayResult × GatewayState :=
  let req := (requestIdStamper uuid req₀).1
  -- login-scope limiter, mounted at /users/login
  let loginOut :=
    if countsAgainstLogin req.path then
      let (ok, ws, ra) :=
        limiterStep cfg.loginWindowMs cfg.loginMax now clientKey st.loginWindows
      (if ok then none
       else some (rateLimitedResponse "login" req.requestId ra),
       { st with loginWindows := ws })
    else (none, st)
  match loginOut with
  | (some r, st) => (.response r, st)
  | (none, st) =>
    -- users-scope limiter, mounted at /users with the login skip
    let usersOut :=
      if countsAgainstUsers req.path then
        let (ok, ws, ra) :=
          limiterStep cfg.usersWindowMs cfg.usersMax now clientKey st.usersWindows
        (if ok then none
         else some (rateLimitedResponse "users" req.requestId ra),
         { st with usersWindows := ws })
      else (none, st)
    match usersOut with
    | (some r, st) => (.response r, st)
    | (none, st) =>
      -- notes-scope limiter, mounted at /notes
      let notesOut :=
        if countsAgainstNotes req.path then
          let (ok, ws, ra) :=
            limiterStep cfg.notesWindowMs cfg.notesMax now clientKey st.notesWindows
          (if ok then none
           else some (rateLimitedResponse "notes" req.requestId ra),
           { st with notesWindows := ws })
        else (none, st)
      match notesOut with
      | (some r, st) => (.response r, st)
      | (none, st) =>
        -- circuit-breaker gates
        if expressMountMatches "/users" req.path && isCircuitOpen now st.userBreaker then
          (.response (sendCircuitOpenResponse now req st.userBreaker), st)
        else if expressMountMatches "/notes" req.path && isCircuitOpen now st.notesBreaker then
          (.response (sendCircuitOpenResponse now req st.notesBreaker), st)
        else
          -- auth middleware; next(err) diverts to the error handler
          match authMiddleware verify req with
          | .nextError e => (.response (errorHandler req.requestId e), st)
          | .next req =>
            if req.method == "GET" && req.path == "/" then
              (.response rootInfoResponse, st)
            else if req.method == "GET" && req.path == "/health" then
              (.healthResponse, st)
            else if expressMountMatches "/users" req.path then
              (.forward .user_service (proxyReqHeaders req), st)
            else if expressMountMatches "/notes" req.path then
              (.forward .notes_service (proxyReqHeaders req), st)
            else
              (.response (errorHandler req.requestId
                { message := "Route not found", statusCode := 404, code := "NOT_FOUND" }), st)

/-- Breaker states reachable from `createCircuitBreaker` by any sequence of
`markCircuitFailure` / `markCircuitSuccess` calls at arbitrary times. -/
inductive ReachableCB (threshold openMs : Nat) : CircuitBreakerState → Prop where
  | init : ∀ t, ReachableCB threshold openMs (createCircuitBreaker t)
  | fail : ∀ (now : Nat) {b}, ReachableCB threshold openMs b →
      ReachableCB threshold openMs (markCircuitFailure threshold openMs now b)
  | succ : ∀ {b}, ReachableCB threshold openMs b →
      ReachableCB threshold openMs (markCircuitSuccess b)

end Gateway

namespace Gateway

/-- Fresh gateway state: both breakers closed, no rate-limit windows. -/
def freshState : GatewayState :=
  { userBreaker := createCircuitBreaker .user_service
    notesBreaker := createCircuitBreaker .notes_service
    loginWindows := fun _ => none
    usersWindows := fun _ => none
    notesWindows := fun _ => none }

/-- The default configuration from the environment fallbacks (index.ts
lines 21-32): threshold 5, open 30000 ms, windows 60000 ms, maxima
10 / 120 / 240. -/
def defaultConfig : GatewayConfig :=
  { failureThreshold := 5, openMs := 30000
    loginWindowMs := 60000, loginMax := 10
    usersWindowMs := 60000, usersMax := 120
    notesWindowMs := 60000, notesMax := 240 }

/-- A login request carrying a client-supplied `x-user-role: admin` header
and no Authorization header at all. -/
def spoofedLoginRequest : GatewayRequest :=
  { method := "POST", path := "/users/login", authorization := none
    xRequestId := .undef, xUserId := .undef, xUserEmail := .undef
    xUserRole := .str "admin", requestId := none }

/-- A closed, never-opened breaker whose counter is below the threshold after
the increment keeps counting: one failure only increments the counter. -/
theorem markFail_increment (threshold openMs now : Nat) (b : CircuitBreakerState)
    (hA : b.openedAt = none) (hU : b.openUntil ≤ now)
    (hlt : b.consecutiveFailures + 1 < threshold) :
    markCircuitFailure threshold openMs now b =
      { b with consecutiveFailures := b.consecutiveFailures + 1 } := by
  unfold markCircuitFailure
  rw [if_neg (by omega), if_neg (by simp [hA]), if_neg (by simp; omega)]

/-- A closed, never-opened breaker whose incremented counter reaches the
threshold opens: counter reset, `openedAt = now`, `openUntil = now + openMs`. -/
theorem markFail_opens (threshold openMs now : Nat) (b : CircuitBreakerState)
    (hA : b.openedAt = none) (hU : b.openUntil ≤ now)
    (hge : threshold ≤ b.consecutiveFailures + 1) :
    markCircuitFailure threshold openMs now b =
      { b with consecutiveFailures := 0, openedAt := some now,
               openUntil := now + openMs } := by
  unfold markCircuitFailure
  rw [if_neg (by omega), if_neg (by simp [hA]), if_pos (by simp; omega)]
  rfl

/-- A previously opened breaker whose open window has elapsed reopens in full
on the next recorded failure. -/
theorem markFail_probe_reopens (threshold openMs now : Nat)
    (b : CircuitBreakerState) (t : Nat)
    (hA : b.openedAt = some t) (hU : b.openUntil ≤ now) :
    markCircuitFailure threshold openMs now b =
      { b with consecutiveFailures := 0, openedAt := some now,
               openUntil := now + openMs } := by
  unfold markCircuitFailure
  rw [if_neg (by omega), if_pos (by simp [hA]; omega)]
  rfl

/-- Iterating failures on a closed, never-opened breaker counts up as long
as the threshold is not reached. -/
theorem iterFail_counts (threshold openMs now : Nat) (b : CircuitBreakerState)
    (hA : b.openedAt = none) (hU : b.openUntil ≤ now) :
    ∀ k, b.consecutiveFailures + k < threshold →
      (markCircuitFailure threshold openMs now)^[k] b =
        { b with consecutiveFailures := b.consecutiveFailures + k } := by
  intro k
  induction k with
  | zero => intro _; simp
  | succ k ih =>
    intro hk
    rw [Function.iterate_succ_apply', ih (by omega),
      markFail_increment threshold openMs now _ (by simpa using hA)
        (by simpa using hU) (by simp; omega)]
    rfl

/-- Invariant of every reachable breaker state: the counter stays below the
threshold, a never-opened (or success-reset) breaker has `openUntil = 0`,
and an opened breaker has a zero counter. -/
theorem reachableCB_invariant {threshold openMs : Nat} (ht : 1 ≤ threshold)
    {b : CircuitBreakerState} (h : ReachableCB threshold openMs b) :
    b.consecutiveFailures < threshold ∧
    (b.openedAt = none → b.openUntil = 0) ∧
    (b.openedAt ≠ none → b.consecutiveFailures = 0) := by
  induction h with
  | init t => exact ⟨ht, fun _ => rfl, fun hx => absurd rfl hx⟩
  | succ _ ih => exact ⟨ht, fun _ => rfl, fun _ => rfl⟩
  | fail now hb ih =>
    obtain ⟨ih1, ih2, ih3⟩ := ih
    rename_i b
    by_cases h1 : now < b.openUntil
    · simpa [markCircuitFailure, h1] using ⟨ih1, ih2, ih3⟩
    · rcases hx : b.openedAt with _ | t
      · by_cases h3 : threshold ≤ b.consecutiveFailures + 1
        · simp [markCircuitFailure, h1, hx, openCircuit, h3]
          omega
        · simp [markCircuitFailure, h1, hx, openCircuit, h3, ih2 hx]
          omega
      · simp [markCircuitFailure, h1, hx, openCircuit, Nat.le_of_not_lt h1]
        omega

/-- Running a sequence of admission calls whose times all fall inside the
current window only increments the counter: the `i`-th call is admitted iff
the resulting count stays within `max`. -/
theorem rlRun_saturated (windowMs max start : Nat) :
    ∀ (ts : List Nat), (∀ t ∈ ts, t < start + windowMs) → ∀ c,
      (rlRun windowMs max (some ⟨start, c⟩) ts).2 =
        (List.range ts.length).map (fun i => decide (c + i + 1 ≤ max)) := by
  intro ts
  induction ts with
  | nil => intro _ c; rfl
  | cons t ts ih =>
    intro h c
    have ht : t < start + windowMs := h t (by simp)
    simp only [rlRun, rlAdmit]
    rw [if_neg (by omega)]
    simp only [List.length_cons, List.range_succ_eq_map, List.map_cons, List.map_map]
    rw [ih (fun t' ht' => h t' (by simp [ht'])) (c + 1)]
    refine congrArg₂ _ (by simp) ?_
    exact List.map_congr_left fun i _ => by
      simp only [Function.comp]
      exact decide_eq_decide.mpr (by omega)

/-- The admission pattern of `1 + k` in-window calls against a fresh window:
when `max = k`, all but the last are admitted. -/
theorem map_decide_replicate (k : Nat) :
    (List.range (k + 1)).map (fun i => decide (1 + i + 1 ≤ k + 1)) =
      List.replicate k true ++ [false] := by
  rw [List.range_succ, List.map_append]
  refine congrArg₂ _ ?_ (by simp)
  rw [List.eq_replicate_iff]
  refine ⟨by simp, ?_⟩
  intro b hb
  simp only [List.mem_map, List.mem_range] at hb
  obtain ⟨i, hi, rfl⟩ := hb
  exact decide_eq_true (by omega)

/-- `x == some (Json.str "admin")` is a lawful equality test. -/
theorem beq_some_admin_iff (x : Option Json) :
    (x == some (Json.str "admin")) = true ↔ x = some (Json.str "admin") := by
  cases x with
  | none =>
    rw [show ((none : Option Json) == some (Json.str "admin")) = false from rfl]
    simp
  | some v =>
    rw [show ((some v : Option Json) == some (Json.str "admin")) =
      Json.beq v (.str "admin") from rfl]
    cases v with
    | str s => simp [Json.beq]
    | num n => simp [Json.beq]
    | obj fs => simp [Json.beq]

/-- The derived role string is `"admin"` exactly when the role claim is the
string `"admin"`. -/
theorem extractedRole_admin_iff (c : JwtClaims) :
    extractedRole c = "admin" ↔ c.role = some (Json.str "admin") := by
  unfold extractedRole
  by_cases hr : (c.role == some (Json.str "admin")) = true
  · rw [if_pos hr]
    exact ⟨fun _ => (beq_some_admin_iff _).mp hr, fun _ => rfl⟩
  · rw [if_neg hr]
    exact ⟨fun habs => absurd habs (by decide),
      fun habs => absurd ((beq_some_admin_iff _).mpr habs) hr⟩


/-- A request on a protected users path with a well-formed bearer header. -/
def protectedRequest : GatewayRequest :=
  { method := "GET", path := "/users/me", authorization := some "Bearer t"
    xRequestId := .str "rid", xUserId := .undef, xUserEmail := .undef
    xUserRole := .undef, requestId := some "rid" }

/-- A breaker that opened at 100 for 30000 ms. -/
def openBreaker : CircuitBreakerState :=
  { targetService := .user_service, consecutiveFailures := 0
    openedAt := some 100, openUntil := 30100 }

/-- A breaker that opened at 500 and whose open window ended at 1000. -/
def elapsedBreaker : CircuitBreakerState :=
  { targetService := .user_service, consecutiveFailures := 0
    openedAt := some 500, openUntil := 1000 }

/-- C1: a request to the unauthenticated login path carrying a client-supplied
`x-user-role: admin` header and no (hence no valid admin) token travels the
whole middleware chain — stamper, limiters (fresh windows admit it), closed
breaker gates, the auth middleware's public-route bypass — and is forwarded
to the user service with `x-user-role: admin` intact, for every possible
verifier.  This exhibits the spoofing path the claim says must not exist:
the gateway never overwrites the client's identity headers on the login
path. -/
theorem c1_spoofed_role_reaches_upstream :
    ∀ verify : String → VerifyResult,
      (handleRequest defaultConfig verify 0 "u" "client" freshState
        spoofedLoginRequest).1 =
      .forward .user_service
        { xRequestId := some "u", authorization := none, xUserId := none,
          xUserEmail := none, xUserRole := some "admin" } :=
  fun _ => rfl

/-- C2: from a fully closed breaker state (never-opened, zero counter, open
window in the past), the `threshold`-th consecutive recorded failure at time
`now` transitions the breaker to Open with `openedAt = now` and
`openUntil = now + openMs`; and while `openUntil` is in the future the gate
middleware rejects the request without forwarding, with a 503 response
carrying code `CIRCUIT_OPEN`, the upstream name, `retryAfterSeconds` equal to
the ceiling of `(openUntil - now) / 1000`, and a matching `Retry-After`
header. -/
theorem c2_threshold_opens_and_open_rejects
    (threshold openMs : Nat) (hthr : 1 ≤ threshold)
    (now : Nat) (b : CircuitBreakerState)
    (hA : b.openedAt = none) (hU : b.openUntil ≤ now)
    (hcf : b.consecutiveFailures = 0)
    (now' : Nat) (req : GatewayRequest) (b' : CircuitBreakerState)
    (hopen : now' < b'.openUntil) :
    (markCircuitFailure threshold openMs now)^[threshold] b =
      { b with consecutiveFailures := 0, openedAt := some now,
               openUntil := now + openMs } ∧
    circuitGate now' req b' = .reject (sendCircuitOpenResponse now' req b') ∧
    (sendCircuitOpenResponse now' req b').status = 503 ∧
    (sendCircuitOpenResponse now' req b').headers =
      [("Retry-After", toString ((b'.openUntil - now' + 999) / 1000))] ∧
    (sendCircuitOpenResponse now' req b').body = .obj
      [("error", .obj
        [("code", .str "CIRCUIT_OPEN"),
         ("message", .str "Upstream service temporarily unavailable"),
         ("service", .str (serviceName b'.targetService)),
         ("retryAfterSeconds", .num ((b'.openUntil - now' + 999) / 1000))]),
       ("requestId", .str (req.requestId.getD (getSingleHeaderValue req.xRequestId)))] := by
  refine ⟨?_, by simp [circuitGate, isCircuitOpen, hopen], rfl, rfl, rfl⟩
  obtain ⟨k, rfl⟩ : ∃ k, threshold = k + 1 := ⟨threshold - 1, by omega⟩
  rw [Function.iterate_succ_apply',
    iterFail_counts (k + 1) openMs now b hA hU k (by omega),
    markFail_opens (k + 1) openMs now _ (by simpa using hA) (by simpa using hU)
      (by simp [hcf])]

/-- Witness for C2 at threshold 5, open duration 30000, failures at time 100,
and a request at time 200 against a breaker open until 30100. -/
theorem c2_witness :
    (markCircuitFailure 5 30000 100)^[5] (createCircuitBreaker .user_service) =
      { targetService := .user_service, consecutiveFailures := 0,
        openedAt := some 100, openUntil := 30100 } ∧
    circuitGate 200 protectedRequest openBreaker =
      .reject (sendCircuitOpenResponse 200 protectedRequest openBreaker) ∧
    (sendCircuitOpenResponse 200 protectedRequest openBreaker).status = 503 ∧
    (sendCircuitOpenResponse 200 protectedRequest openBreaker).headers =
      [("Retry-After", toString ((30100 - 200 + 999) / 1000))] ∧
    (sendCircuitOpenResponse 200 protectedRequest openBreaker).body = .obj
      [("error", .obj
        [("code", .str "CIRCUIT_OPEN"),
         ("message", .str "Upstream service temporarily unavailable"),
         ("service", .str (serviceName .user_service)),
         ("retryAfterSeconds", .num ((30100 - 200 + 999) / 1000))]),
       ("requestId", .str "rid")] :=
  c2_threshold_opens_and_open_rejects 5 30000 (by decide) 100
    (createCircuitBreaker .user_service) rfl (by decide) rfl
    200 protectedRequest openBreaker (by decide)

/-- C3: on a breaker that has opened (`openedAt` non-null) and whose open
duration has elapsed, a recorded failure of the recovery probe reopens the
circuit immediately for a fresh full duration — counter reset to 0, not
merely incremented, no threshold involved — while a recorded success closes
it fully: counter 0, `openedAt` cleared, `openUntil` cleared. -/
theorem c3_probe_failure_reopens_success_closes
    (threshold openMs now t : Nat) (b : CircuitBreakerState)
    (hA : b.openedAt = some t) (hU : b.openUntil ≤ now) :
    markCircuitFailure threshold openMs now b =
      { b with consecutiveFailures := 0, openedAt := some now,
               openUntil := now + openMs } ∧
    markCircuitSuccess b =
      { b with consecutiveFailures := 0, openedAt := none, openUntil := 0 } :=
  ⟨markFail_probe_reopens threshold openMs now b t hA hU, rfl⟩

/-- Witness for C3 on a breaker opened at 500 and elapsed at 1000, probed at
time 40000. -/
theorem c3_witness :
    markCircuitFailure 5 30000 40000 elapsedBreaker =
      { targetService := .user_service, consecutiveFailures := 0,
        openedAt := some 40000, openUntil := 70000 } ∧
    markCircuitSuccess elapsedBreaker =
      { targetService := .user_service, consecutiveFailures := 0,
        openedAt := none, openUntil := 0 } :=
  c3_probe_failure_reopens_success_closes 5 30000 40000 500 elapsedBreaker
    rfl (by decide)

/-- Counterexample to C4: on a breaker whose open window elapsed at 1000, the
probe request at time 1000 is let through, and a second request at time 1001
— arriving before any probe outcome is recorded, so the state is unchanged —
is let through to the upstream as well, contradicting the claim that it is
not let through. -/
theorem c4_counterexample_second_request_forwarded :
    elapsedBreaker.openUntil ≤ 1000 ∧
    circuitGate 1000 protectedRequest elapsedBreaker = .forward ∧
    circuitGate 1001 protectedRequest elapsedBreaker = .forward :=
  ⟨by decide, rfl, rfl⟩

/-- C4 (amended): after the open duration elapses, every request arriving
before a probe outcome is recorded is let through (the timestamp-based gate
does not limit the probe to a single request); once a probe failure is
recorded at time `now`, the breaker is open until `now + openMs` and every
request before that is rejected; a recorded probe success closes the
breaker. -/
theorem c4_amended_probe_admission
    (threshold openMs : Nat) (b : CircuitBreakerState) (t : Nat)
    (hA : b.openedAt = some t)
    (now now' : Nat) (hU : b.openUntil ≤ now) (hU' : b.openUntil ≤ now')
    (req req' : GatewayRequest) :
    circuitGate now req b = .forward ∧
    circuitGate now' req' b = .forward ∧
    (∀ now'' req'', now'' < now + openMs →
      circuitGate now'' req'' (markCircuitFailure threshold openMs now b) =
        .reject (sendCircuitOpenResponse now'' req''
          (markCircuitFailure threshold openMs now b))) ∧
    markCircuitSuccess b =
      { b with consecutiveFailures := 0, openedAt := none, openUntil := 0 } := by
  refine ⟨by simp [circuitGate, isCircuitOpen, Nat.not_lt.mpr hU],
    by simp [circuitGate, isCircuitOpen, Nat.not_lt.mpr hU'], ?_, rfl⟩
  intro now'' req'' hlt
  rw [markFail_probe_reopens threshold openMs now b t hA hU]
  simp [circuitGate, isCircuitOpen, hlt]

/-- Witness for C4 (amended): probes at times 1000 and 1001 both pass the
gate; after a probe failure recorded at 1000 the gate rejects at 1500. -/
theorem c4_witness :
    circuitGate 1000 protectedRequest elapsedBreaker = .forward ∧
    circuitGate 1001 protectedRequest elapsedBreaker = .forward ∧
    circuitGate 1500 protectedRequest
        (markCircuitFailure 5 30000 1000 elapsedBreaker) =
      .reject (sendCircuitOpenResponse 1500 protectedRequest
        (markCircuitFailure 5 30000 1000 elapsedBreaker)) ∧
    markCircuitSuccess elapsedBreaker =
      { targetService := .user_service, consecutiveFailures := 0,
        openedAt := none, openUntil := 0 } :=
  let h := c4_amended_probe_admission 5 30000 elapsedBreaker 500 rfl
    1000 1001 (by decide) (by decide) protectedRequest protectedRequest
  ⟨h.1, h.2.1, h.2.2.1 1500 protectedRequest (by decide), h.2.2.2⟩

/-- C10: every breaker state reachable from `createCircuitBreaker` through
any sequence of failure/success marks (threshold at least 1) keeps
`0 ≤ consecutiveFailures < threshold`; whenever the circuit is open
(`now < openUntil`) the counter is 0; and a failure marked while the circuit
is open leaves the entire state unchanged. -/
theorem c10_reachable_breaker_invariant
    (threshold openMs : Nat) (hthr : 1 ≤ threshold)
    (b : CircuitBreakerState) (h : ReachableCB threshold openMs b) :
    (0 ≤ b.consecutiveFailures ∧ b.consecutiveFailures < threshold) ∧
    (∀ now, now < b.openUntil → b.consecutiveFailures = 0) ∧
    (∀ now, now < b.openUntil → markCircuitFailure threshold openMs now b = b) := by
  obtain ⟨h1, h2, h3⟩ := reachableCB_invariant hthr h
  refine ⟨⟨Nat.zero_le _, h1⟩, ?_, ?_⟩
  · intro now hn
    rcases hx : b.openedAt with _ | t
    · have := h2 hx; omega
    · exact h3 (by simp [hx])
  · intro now hn
    simp [markCircuitFailure, hn]

/-- The breaker state after one failure at threshold 1: opened at 100. -/
def oneShotOpened : CircuitBreakerState :=
  markCircuitFailure 1 30000 100 (createCircuitBreaker .user_service)

/-- Witness for C10 on the reachable state obtained by one failure at
threshold 1 (which opens the circuit until 30100), observed at time 200. -/
theorem c10_witness :
    (0 ≤ oneShotOpened.consecutiveFailures ∧
      oneShotOpened.consecutiveFailures < 1) ∧
    oneShotOpened.consecutiveFailures = 0 ∧
    markCircuitFailure 1 30000 200 oneShotOpened = oneShotOpened :=
  let h := c10_reachable_breaker_invariant 1 30000 (by decide) oneShotOpened
    (ReachableCB.fail 100 (ReachableCB.init .user_service))
  ⟨h.1, h.2.1 200 (by decide), h.2.2 200 (by decide)⟩

/-- C5: fixed-window admission (modelled from the spec for the
`express-rate-limit` dependency): a fresh key's first call starts a window
with count 1 and admits; in-window calls increment and admit iff the count
stays within `max`; hence of `max + 1` requests from the same client inside
one window exactly the first `max` are admitted and the last is rejected,
and the rejection response (source 429 handler) carries status 429, code
`RATE_LIMITED` and the limiter scope. -/
theorem c5_fixed_window_exactly_max
    (windowMs max : Nat) (hmax : 1 ≤ max)
    (t0 : Nat) (ts : List Nat) (hlen : ts.length = max)
    (hin : ∀ t ∈ ts, t < t0 + windowMs)
    (scope : String) (requestId : Option String) (retryAfter : Nat) :
    (rlRun windowMs max none (t0 :: ts)).2 =
      List.replicate max true ++ [false] ∧
    (rateLimitedResponse scope requestId retryAfter).status = 429 ∧
    (rateLimitedResponse scope requestId retryAfter).body = .obj
      [("error", .obj
        [("code", .str "RATE_LIMITED"),
         ("message", .str "Too many requests, please try again later."),
         ("limiter", .str scope)]),
       ("requestId", .str (requestId.getD "n/a"))] := by
  refine ⟨?_, rfl, rfl⟩
  obtain ⟨k, rfl⟩ : ∃ k, max = k + 1 := ⟨max - 1, by omega⟩
  simp only [rlRun, rlAdmit]
  rw [rlRun_saturated windowMs (k + 1) t0 ts hin 1, hlen,
    map_decide_replicate k]
  simp [List.replicate_succ]

/-- Witness for C5: 11 requests at times 0, 50, 50, … against the login
scope's defaults (window 60000 ms, max 10): ten admissions then a
rejection. -/
theorem c5_witness :
    (rlRun 60000 10 none (0 :: List.replicate 10 50)).2 =
      List.replicate 10 true ++ [false] ∧
    (rateLimitedResponse "login" (some "rid") 42).status = 429 ∧
    (rateLimitedResponse "login" (some "rid") 42).body = .obj
      [("error", .obj
        [("code", .str "RATE_LIMITED"),
         ("message", .str "Too many requests, please try again later."),
         ("limiter", .str "login")]),
       ("requestId", .str "rid")] :=
  c5_fixed_window_exactly_max 60000 10 (by decide) 0 (List.replicate 10 50)
    (by decide) (by decide) "login" (some "rid") 42

/-- Counterexample to C6: `/users/login/extra` is a users-prefixed path that
is not the login path, yet it matches the `app.use('/users/login', …)` mount
and is therefore counted against the login scope (and, since its sub-path
under `/users` is `/login/extra` ≠ `/login`, also against the users scope),
contradicting "counted against the users scope and not the login scope". -/
theorem c6_counterexample_login_subtree :
    jsStartsWith "/users/login/extra" "/users" = true ∧
    "/users/login/extra" ≠ "/users/login" ∧
    countsAgainstLogin "/users/login/extra" = true ∧
    countsAgainstUsers "/users/login/extra" = true :=
  ⟨rfl, by decide, rfl, rfl⟩

/-- C6 (amended): the login path `/users/login` itself is counted against the
login scope and never against the users scope; and every users-mounted path
that does not match the `/users/login` mount is counted against the users
scope and not the login scope.  (Paths strictly below `/users/login/` are
counted against both scopes.) -/
theorem c6_amended_scope_separation (path : String)
    (hm : expressMountMatches "/users" path = true)
    (hnl : countsAgainstLogin path = false) :
    countsAgainstUsers path = true ∧
    countsAgainstLogin "/users/login" = true ∧
    countsAgainstUsers "/users/login" = false := by
  refine ⟨?_, by decide, by decide⟩
  have hsub : expressSubPath "/users" path ≠ "/login" := by
    intro heq
    unfold expressSubPath at heq
    by_cases hb : (path == "/users") = true
    · rw [if_pos hb] at heq
      exact absurd heq (by decide)
    · rw [if_neg hb] at heq
      have hpre : ("/users" ++ "/").data.isPrefixOf path.data = true := by
        have hm' := hm
        unfold expressMountMatches at hm'
        simpa [hb] using hm'
      rw [ List.isPrefixOf_iff_prefix] at hpre
      obtain ⟨tl, htl⟩ := hpre
      have h7 : ("/users" ++ "/").data = ['/', 'u', 's', 'e', 'r', 's', '/'] := rfl
      rw [h7] at htl
      have hd : path.data.drop ("/users".data.length) = "/login".data :=
        congrArg String.data heq
      rw [← htl] at hd
      have hd2 : ('/' :: tl : List Char) = "/login".data := hd
      have htll : tl = ['l', 'o', 'g', 'i', 'n'] := by
        have : ('/' :: tl : List Char) = ['/', 'l', 'o', 'g', 'i', 'n'] := hd2
        simpa using this
      have hpl : path = "/users/login" := by
        cases path with
        | mk pdata =>
          simp only [String.data] at htl
          rw [show ("/users/login" : String) =
            ⟨['/', 'u', 's', 'e', 'r', 's', '/', 'l', 'o', 'g', 'i', 'n']⟩ from rfl]
          rw [← htl, htll]
          rfl
      rw [hpl] at hnl
      exact absurd hnl (by decide)
  have hskip : usersSkip path = false := by
    unfold usersSkip
    exact beq_eq_false_iff_ne.mpr hsub
  simp [countsAgainstUsers, hm, hskip]

/-- Witness for C6 (amended) at the users path `/users/me`. -/
theorem c6_witness :
    countsAgainstUsers "/users/me" = true ∧
    countsAgainstLogin "/users/login" = true ∧
    countsAgainstUsers "/users/login" = false :=
  c6_amended_scope_separation "/users/me" (by decide) (by decide)

/-- Counterexample to C7: the 429 handler's JSON body (429 responses of the
source's `createRateLimiter`) contains no numeric leaf at all and no
`retryAfterSeconds` key at any depth — its fields are exactly
`error.code`, `error.message`, `error.limiter` and `requestId` — so the
retry-after duration is not carried in a machine-readable field of the
body. -/
theorem c7_counterexample_no_body_field :
    Json.containsNum (rateLimitedBody "users" (some "req-1")) = false ∧
    Json.hasKeyDeep "retryAfterSeconds" (rateLimitedBody "users" (some "req-1")) = false := by
  constructor
  · simp [rateLimitedBody, Json.containsNum, Json.fieldsContainNum]
  · simp [rateLimitedBody, Json.hasKeyDeep, Json.fieldsHaveKey]

/-- C7 (amended): on rate-limit rejection the retry-after duration — the
ceiling of the milliseconds remaining in the window, as modelled from the
spec for the `express-rate-limit` dependency — is carried in the HTTP
`Retry-After` header only; it is at most the window duration in seconds
(rounded up); the JSON body carries the scope but no machine-readable
retry-after field. -/
theorem c7_amended_retry_after_header_only
    (windowMs now : Nat) (win : RLWindow) (hstart : win.windowStart ≤ now)
    (scope : String) (requestId : Option String) :
    rlRetryAfterSeconds windowMs now win ≤ (windowMs + 999) / 1000 ∧
    (rateLimitedResponse scope requestId
      (rlRetryAfterSeconds windowMs now win)).status = 429 ∧
    (rateLimitedResponse scope requestId
      (rlRetryAfterSeconds windowMs now win)).headers =
      [("Retry-After", toString (rlRetryAfterSeconds windowMs now win))] ∧
    Json.containsNum (rateLimitedResponse scope requestId
      (rlRetryAfterSeconds windowMs now win)).body = false := by
  refine ⟨?_, rfl, rfl, ?_⟩
  · unfold rlRetryAfterSeconds
    exact Nat.div_le_div_right (by omega)
  · simp [rateLimitedResponse, rateLimitedBody, Json.containsNum,
      Json.fieldsContainNum]

/-- Witness for C7 (amended): a window started at 0 with 60000 ms duration,
rejected at time 30500. -/
theorem c7_witness :
    rlRetryAfterSeconds 60000 30500 ⟨0, 11⟩ ≤ (60000 + 999) / 1000 ∧
    (rateLimitedResponse "users" (some "rid")
      (rlRetryAfterSeconds 60000 30500 ⟨0, 11⟩)).status = 429 ∧
    (rateLimitedResponse "users" (some "rid")
      (rlRetryAfterSeconds 60000 30500 ⟨0, 11⟩)).headers =
      [("Retry-After", toString (rlRetryAfterSeconds 60000 30500 ⟨0, 11⟩))] ∧
    Json.containsNum (rateLimitedResponse "users" (some "rid")
      (rlRetryAfterSeconds 60000 30500 ⟨0, 11⟩)).body = false :=
  c7_amended_retry_after_header_only 60000 30500 ⟨0, 11⟩ (by decide)
    "users" (some "rid")

/-- C8: on a protected route (users- or notes-prefixed, not the login path),
every token failure mode — missing or non-Bearer Authorization header,
a verification error of any kind (malformed token, tampered or invalid
signature — all surface as the library throwing), a string payload, or an
empty/missing subject — produces the one `AppError('Unauthorized', 401,
'UNAUTHORIZED')`, rendered as a 401 body with code `UNAUTHORIZED` that does
not depend on which check failed, and the middleware never yields `next`
(the request is not forwarded); on success the role header is `admin` iff
the decoded role claim is exactly the string `"admin"`. -/
theorem c8_protected_route_auth (verify : String → VerifyResult)
    (req : GatewayRequest)
    (hroute : (jsStartsWith req.path "/users" || jsStartsWith req.path "/notes") = true)
    (hnotlogin : req.path ≠ "/users/login") :
    (req.authorization = none →
      authMiddleware verify req = .nextError unauthorizedError) ∧
    (∀ h, req.authorization = some h → jsStartsWith h "Bearer " = false →
      authMiddleware verify req = .nextError unauthorizedError) ∧
    (∀ h, req.authorization = some h → jsStartsWith h "Bearer " = true →
      (verify (h.drop "Bearer ".length) = .err →
        authMiddleware verify req = .nextError unauthorizedError) ∧
      (∀ s, verify (h.drop "Bearer ".length) = .strPayload s →
        authMiddleware verify req = .nextError unauthorizedError) ∧
      (∀ c, verify (h.drop "Bearer ".length) = .payload c →
        (extractedSub c = "" →
          authMiddleware verify req = .nextError unauthorizedError) ∧
        (extractedSub c ≠ "" →
          authMiddleware verify req = .next { req with
            xUserId := .str (extractedSub c),
            xUserEmail := .str (extractedEmail c),
            xUserRole := .str (extractedRole c) } ∧
          (extractedRole c = "admin" ↔ c.role = some (Json.str "admin"))))) ∧
    (errorHandler req.requestId unauthorizedError).status = 401 ∧
    (errorHandler req.requestId unauthorizedError).body = .obj
      [("error", .obj [("code", .str "UNAUTHORIZED"),
                       ("message", .str "Unauthorized")]),
       ("requestId", .str (req.requestId.getD "n/a"))] ∧
    (∀ r', authMiddleware verify req = .nextError unauthorizedError →
      authMiddleware verify req ≠ .next r') := by
  have hcond : (!(jsStartsWith req.path "/users") &&
      !(jsStartsWith req.path "/notes")) = false := by
    rw [← Bool.not_or, hroute]
    rfl
  have hnbool : (req.path == "/users/login") = false :=
    beq_eq_false_iff_ne.mpr hnotlogin
  refine ⟨?_, ?_, ?_, rfl, rfl, ?_⟩
  · intro ha
    simp [authMiddleware, hcond, hnbool, ha]
  · intro h ha hb
    simp [authMiddleware, hcond, hnbool, ha, hb]
  · intro h ha hb
    refine ⟨?_, ?_, ?_⟩
    · intro hv
      simp [authMiddleware, hcond, hnbool, ha, hb, hv]
    · intro s hv
      simp [authMiddleware, hcond, hnbool, ha, hb, hv]
    · intro c hv
      constructor
      · intro hsub
        simp [authMiddleware, hcond, hnbool, ha, hb, hv, hsub]
      · intro hsub
        have hsubb : (extractedSub c == "") = false :=
          beq_eq_false_iff_ne.mpr hsub
        refine ⟨?_, ?_⟩
        · simp [authMiddleware, hcond, hnbool, ha, hb, hv, hsubb]
        · exact extractedRole_admin_iff c
  · intro r' h1 h2
    rw [h1] at h2
    exact AuthOutcome.noConfusion h2

/-- Witness for C8: a verifier that always fails, on `GET /users/me` with a
well-formed bearer header, yields the uniform 401. -/
theorem c8_witness :
    authMiddleware (fun _ => VerifyResult.err) protectedRequest =
      .nextError unauthorizedError ∧
    (errorHandler protectedRequest.requestId unauthorizedError).status = 401 :=
  let h := c8_protected_route_auth (fun _ => VerifyResult.err) protectedRequest
    (by decide) (by decide)
  ⟨(h.2.2.1 "Bearer t" rfl rfl).1 rfl, h.2.2.2.1⟩

/-- A request whose inbound `x-request-id` header has surrounding
whitespace. -/
def paddedIdRequest : GatewayRequest :=
  { method := "GET", path := "/users/me", authorization := none
    xRequestId := .str " abc ", xUserId := .undef, xUserEmail := .undef
    xUserRole := .undef, requestId := none }

/-- Counterexample to C9: with an inbound `x-request-id` of `" abc "` —
present and non-empty after trimming — the stamper adopts the trimmed value
`"abc"` as the correlation id, which differs from the verbatim header
value, so the header is not reused verbatim. -/
theorem c9_counterexample_not_verbatim :
    (requestIdStamper "uuid-1" paddedIdRequest).2 = "abc" ∧
    jsTrim " abc " = "abc" ∧ ("abc" : String) ≠ "" ∧
    ("abc" : String) ≠ " abc " :=
  ⟨rfl, rfl, by decide, by decide⟩

/-- C9 (amended): if the inbound `x-request-id` header is present and
non-empty after trimming, its trimmed value becomes the correlation id
(for an array header, the first element's trimmed value); otherwise the
freshly generated identifier does.  In all cases the correlation id is the
value set on the outbound response's `x-request-id` header, is attached to
the request context (`req.requestId`), and replaces the request's own
`x-request-id` header.  The stamper is a total function: it never rejects
a request. -/
theorem c9_amended_stamper (uuid : String) (req : GatewayRequest) :
    (∀ s, req.xRequestId = .str s → jsTrim s ≠ "" →
      (requestIdStamper uuid req).2 = jsTrim s) ∧
    (∀ s, req.xRequestId = .str s → jsTrim s = "" →
      (requestIdStamper uuid req).2 = uuid) ∧
    (∀ xs, req.xRequestId = .arr xs → jsTrim (xs.headD "") ≠ "" →
      (requestIdStamper uuid req).2 = jsTrim (xs.headD "")) ∧
    (∀ xs, req.xRequestId = .arr xs → jsTrim (xs.headD "") = "" →
      (requestIdStamper uuid req).2 = uuid) ∧
    (req.xRequestId = .undef → (requestIdStamper uuid req).2 = uuid) ∧
    (requestIdStamper uuid req).1.requestId =
      some (requestIdStamper uuid req).2 ∧
    (requestIdStamper uuid req).1.xRequestId =
      .str (requestIdStamper uuid req).2 := by
  refine ⟨?_, ?_, ?_, ?_, ?_, ?_, ?_⟩
  · intro s hh ht; simp [requestIdStamper, hh, ht]
  · intro s hh ht; simp [requestIdStamper, hh, ht]
  · intro xs hh ht
    simp only [requestIdStamper, hh]
    rw [if_neg (by simpa using ht)]
  · intro xs hh ht
    simp only [requestIdStamper, hh]
    rw [if_pos (by simpa using ht)]
  · intro hh; simp [requestIdStamper, hh]
  · simp [requestIdStamper]
  · simp [requestIdStamper]

/-- Witness for C9 (amended): the padded header yields the trimmed id, and
it is attached to the request context. -/
theorem c9_witness :
    (requestIdStamper "uuid-1" paddedIdRequest).2 = jsTrim " abc " ∧
    (requestIdStamper "uuid-1" paddedIdRequest).1.requestId =
      some (requestIdStamper "uuid-1" paddedIdRequest).2 :=
  let h := c9_amended_stamper "uuid-1" paddedIdRequest
  ⟨h.1 " abc " rfl (by decide), h.2.2.2.2.2.1⟩

end Gateway
